import Mathlib

/-!
Verification of the maptoposter map-poster generator.

This file gives a shallow embedding, in Lean 4, of the parts of the program
that the verified properties talk about: the cache-key derivations of the
geocoder and the OSM data fetcher, the rate-limiter wait logic, theme
loading and validation, the renderer edge-tier classification and crop
computation, the typography title-sizing rule, and the all-themes batch
loop.  Each definition is a direct translation of the corresponding Python
function; numeric values that Python holds as `float` are modelled as exact
rationals (the verified properties use them only through comparisons and
field arithmetic), Python `int` is modelled as `Int`, and Python strings as
`String`.
-/

namespace MapPoster

/-! ## Decimal rendering of integers

Python renders `f"{dist}"` with `str(int)`: the decimal digits of the
magnitude, preceded by `-` for negative numbers.  The fuel argument makes
the recursion structural; fuel `n` is always sufficient for input `n`.
-/

/-- The ASCII digit character for a value `0 ≤ n ≤ 9`. -/
def decDigitChar (n : Nat) : Char := Char.ofNat (48 + n)

/-- Decimal digit characters of `n`, most significant first (empty for 0),
computed with explicit fuel to keep the recursion structural. -/
def natDecDigitsAux : Nat → Nat → List Char
  | 0, _ => []
  | fuel + 1, n =>
    if n = 0 then [] else natDecDigitsAux fuel (n / 10) ++ [decDigitChar (n % 10)]

/-- Decimal rendering of a natural number, as Python `str` produces it. -/
def natToDec (n : Nat) : String :=
  if n = 0 then "0" else String.mk (natDecDigitsAux n n)

/-- Decimal rendering of an integer, as Python `str` produces it:
a leading minus sign for negative values, then the digits of the magnitude. -/
def intToDec (i : Int) : String :=
  if i < 0 then "-" ++ natToDec i.natAbs else natToDec i.natAbs

/-- Read a digit string back to the natural number it denotes. -/
def decDecode (l : List Char) : Nat :=
  l.foldl (fun a c => a * 10 + (c.toNat - 48)) 0

theorem toNat_decDigitChar {n : Nat} (h : n < 10) : (decDigitChar n).toNat = 48 + n := by
  interval_cases n <;> decide

theorem decDecode_append_digit (l : List Char) (c : Char) :
    decDecode (l ++ [c]) = decDecode l * 10 + (c.toNat - 48) := by
  simp [decDecode, List.foldl_append]

theorem decDecode_natDecDigitsAux :
    ∀ fuel n, n ≤ fuel → decDecode (natDecDigitsAux fuel n) = n := by
  intro fuel
  induction fuel with
  | zero =>
    intro n hn
    interval_cases n
    simp [natDecDigitsAux, decDecode]
  | succ fuel ih =>
    intro n hn
    by_cases h0 : n = 0
    · simp [natDecDigitsAux, h0, decDecode]
    · have hdiv : n / 10 < n := Nat.div_lt_self (Nat.pos_of_ne_zero h0) (by norm_num)
      have hfuel : n / 10 ≤ fuel := by omega
      have hmod : n % 10 < 10 := Nat.mod_lt _ (by norm_num)
      rw [natDecDigitsAux, if_neg h0, decDecode_append_digit, ih _ hfuel,
        toNat_decDigitChar hmod]
      omega

theorem decDecode_natToDec (n : Nat) : decDecode (natToDec n).data = n := by
  by_cases h0 : n = 0
  · subst h0; decide
  · rw [natToDec, if_neg h0]
    exact decDecode_natDecDigitsAux n n le_rfl

theorem natToDec_injective {m n : Nat} (h : natToDec m = natToDec n) : m = n := by
  have := congrArg (fun s : String => decDecode s.data) h
  simpa [decDecode_natToDec] using this

theorem mem_natDecDigitsAux_toNat :
    ∀ fuel n c, c ∈ natDecDigitsAux fuel n → 48 ≤ c.toNat := by
  intro fuel
  induction fuel with
  | zero => intro n c hc; simp [natDecDigitsAux] at hc
  | succ fuel ih =>
    intro n c hc
    by_cases h0 : n = 0
    · simp [natDecDigitsAux, h0] at hc
    · rw [natDecDigitsAux, if_neg h0] at hc
      rcases List.mem_append.mp hc with h | h
      · exact ih _ _ h
      · have hmod : n % 10 < 10 := Nat.mod_lt _ (by norm_num)
        have hc' : c = decDigitChar (n % 10) := by simpa using h
        rw [hc', toNat_decDigitChar hmod]
        omega

theorem mem_natToDec_toNat (n : Nat) (c : Char) (hc : c ∈ (natToDec n).data) :
    48 ≤ c.toNat := by
  by_cases h0 : n = 0
  · subst h0
    have : c = '0' := by simpa [natToDec] using hc
    subst this; decide
  · rw [natToDec, if_neg h0] at hc
    exact mem_natDecDigitsAux_toNat n n c hc

theorem intToDec_injective {i j : Int} (h : intToDec i = intToDec j) : i = j := by
  unfold intToDec at h
  by_cases hi : i < 0 <;> by_cases hj : j < 0
  · rw [if_pos hi, if_pos hj] at h
    have hdata := congrArg String.data h
    simp only [String.data_append] at hdata
    have : natToDec i.natAbs = natToDec j.natAbs :=
      String.ext (List.append_cancel_left hdata)
    have := natToDec_injective this
    omega
  · rw [if_pos hi, if_neg hj] at h
    have hdata := congrArg String.data h
    simp only [String.data_append] at hdata
    have hmem : '-' ∈ (natToDec j.natAbs).data := by
      rw [← hdata]; simp
    have := mem_natToDec_toNat _ _ hmem
    simp at this
  · rw [if_neg hi, if_pos hj] at h
    have hdata := congrArg String.data h
    simp only [String.data_append] at hdata
    have hmem : '-' ∈ (natToDec i.natAbs).data := by
      rw [hdata]; simp
    have := mem_natToDec_toNat _ _ hmem
    simp at this
  · rw [if_neg hi, if_neg hj] at h
    have := natToDec_injective h
    omega

/-! ## Cache keys (`geocoding.py`, `data_fetching.py`)

`NominatimGeocoder._cache_key` returns `f"coords_{city.lower()}_{country.lower()}"`.
`OSMDataFetcher._features_cache_key` returns
`f"{name}_{lat}_{lon}_{dist}_{tag_str}"` with
`tag_str = "_".join(sorted(tags.keys()))`.  Latitude and longitude are
floats that enter the key only through their `str` rendering, so they are
modelled here by those rendered strings.  A Python dict of tags is
modelled as an association list; `sorted` on strings is the unique
lexicographically ordered permutation, modelled by `List.insertionSort`.
-/

/-- The Python method `str.lower()`, character by character (the inputs of interest
are basic-latin; `Char.toLower` lowercases exactly that range). -/
def pyLower (s : String) : String := String.mk (s.data.map Char.toLower)

/-- Key derivation `NominatimGeocoder._cache_key`. -/
def geo_cache_key (city country : String) : String :=
  "coords_" ++ pyLower city ++ "_" ++ pyLower country

/-- Key derivation `OSMDataFetcher._features_cache_key`; `tag_str` is
`"_".join(sorted(tags.keys()))`. -/
def features_cache_key (lat lon : String) (dist : Int)
    (tags : List (String × String)) (name : String) : String :=
  name ++ "_" ++ lat ++ "_" ++ lon ++ "_" ++ intToDec dist ++ "_" ++
    String.intercalate "_" (List.insertionSort (· ≤ ·) (tags.map Prod.fst))

theorem insertionSort_eq_of_perm {l₁ l₂ : List String} (h : l₁.Perm l₂) :
    List.insertionSort (· ≤ ·) l₁ = List.insertionSort (· ≤ ·) l₂ :=
  List.eq_of_perm_of_sorted
    ((List.perm_insertionSort _ l₁).trans (h.trans (List.perm_insertionSort _ l₂).symm))
    (List.sorted_insertionSort _ l₁) (List.sorted_insertionSort _ l₂)

theorem list_append_middle_cancel {α : Type} {p s a b : List α}
    (h : p ++ a ++ s = p ++ b ++ s) : a = b := by
  rw [List.append_assoc, List.append_assoc] at h
  have h' := List.append_cancel_left h
  exact List.append_cancel_right h'

/-- C1 (counterexample): the features cache key ignores tag values.  Two
requests whose tag dictionaries have the same keys `natural` but the
different values `water` and `coastline` derive the identical storage key,
refuting the claim that tag sets with the same keys but different values
derive different keys. -/
theorem features_cache_key_ignores_tag_values :
    features_cache_key "48.85" "2.35" 1000 [("natural", "water")] "water"
      = features_cache_key "48.85" "2.35" 1000 [("natural", "coastline")] "water"
    ∧ ([("natural", "water")] : List (String × String)) ≠ [("natural", "coastline")] := by
  exact ⟨by decide, by decide⟩

/-- C1 (amended): identical logical feature-fetch request parameters, with
tag-set ordering insensitivity — in fact with any two tag dictionaries whose
key lists are permutations of each other — derive the identical storage
key, and requests that differ in radius (all other parameters equal) derive
different keys.  (The key depends on the tags only through their sorted
keys, so tag sets with equal keys and different values share a key.) -/
theorem features_cache_key_amended (lat lon name : String) :
    (∀ (tags₁ tags₂ : List (String × String)) (dist : Int),
        (tags₁.map Prod.fst).Perm (tags₂.map Prod.fst) →
        features_cache_key lat lon dist tags₁ name
          = features_cache_key lat lon dist tags₂ name)
    ∧ ∀ (tags : List (String × String)) (d₁ d₂ : Int), d₁ ≠ d₂ →
        features_cache_key lat lon d₁ tags name
          ≠ features_cache_key lat lon d₂ tags name := by
  constructor
  · intro t₁ t₂ dist hperm
    unfold features_cache_key
    rw [insertionSort_eq_of_perm hperm]
  · intro tags d₁ d₂ hne heq
    apply hne
    apply intToDec_injective
    apply String.ext
    unfold features_cache_key at heq
    have hdata := congrArg String.data heq
    simp only [String.data_append, List.append_assoc] at hdata
    have h1 := List.append_cancel_left hdata
    have h2 := List.append_cancel_left h1
    have h3 := List.append_cancel_left h2
    have h4 := List.append_cancel_left h3
    have h5 := List.append_cancel_left h4
    have h6 := List.append_cancel_left h5
    exact List.append_cancel_right h6

/-- Witness for C1: a concrete tag-order permutation that keeps the key, and
a concrete radius change that changes it. -/
theorem features_cache_key_amended_witness :
    features_cache_key "48.85" "2.35" 1000 [("leisure", "park"), ("landuse", "grass")] "parks"
      = features_cache_key "48.85" "2.35" 1000 [("landuse", "grass"), ("leisure", "park")] "parks"
    ∧ features_cache_key "48.85" "2.35" 1000 [("leisure", "park")] "parks"
      ≠ features_cache_key "48.85" "2.35" 2000 [("leisure", "park")] "parks" :=
  ⟨(features_cache_key_amended "48.85" "2.35" "parks").1 _ _ 1000 (by decide),
   (features_cache_key_amended "48.85" "2.35" "parks").2 _ 1000 2000 (by decide)⟩

/-- C10: the geocoder cache key `coords_{city.lower()}_{country.lower()}`
is not injective on distinct logical requests: `("a", "b_c")` and
`("a_b", "c")` share the key `coords_a_b_c`, and pairs differing only in
letter case share a key as well. -/
theorem geo_cache_key_not_injective :
    geo_cache_key "a" "b_c" = geo_cache_key "a_b" "c"
    ∧ (("a", "b_c") : String × String) ≠ ("a_b", "c")
    ∧ geo_cache_key "Paris" "FRANCE" = geo_cache_key "paris" "france"
    ∧ (("Paris", "FRANCE") : String × String) ≠ ("paris", "france") := by
  exact ⟨by decide, by decide, by decide, by decide⟩

/-! ## Themes (`theme.py`)

`Theme` is a dataclass with `name`, `description` and 11 color fields, all
strings.  `Theme.validate` raises `ValueError` unless every color field
satisfies `re.match(r"^#[0-9A-Fa-f]{6}$", color)`; `validateOk t = true`
models "validate does not raise".  Note the Python regex anchor `$`
matches both at the end of the string and just before a newline that ends
the string, so `validate` also accepts a color with one trailing newline.

`ThemeManager.load_theme` reads `{name}.json` from the themes directory;
the directory is modelled as a function from theme name to the outcome of
reading and parsing that file (`missing` when the file does not exist,
`malformed` when `json.load` or the dataclass construction raises, and
`record t` when parsing produced the theme `t`).
-/

structure Theme where
  name : String
  description : String
  bg : String
  text : String
  gradient_color : String
  water : String
  parks : String
  road_motorway : String
  road_primary : String
  road_secondary : String
  road_tertiary : String
  road_residential : String
  road_default : String
deriving DecidableEq

/-- The character class `[0-9A-Fa-f]`. -/
def isAsciiHexDigit (c : Char) : Bool :=
  ('0' ≤ c && c ≤ '9') || ('A' ≤ c && c ≤ 'F') || ('a' ≤ c && c ≤ 'f')

/-- Does a character list consist of `#` followed by exactly six hex digits? -/
def isHexColorChars : List Char → Bool
  | '#' :: rest => rest.length == 6 && rest.all isAsciiHexDigit
  | _ => false

/-- The color syntax exactly as the spec words it: a string consisting of
`#` followed by exactly six hex digits, with nothing else before or after. -/
def specHexColor (s : String) : Bool := isHexColorChars s.data

/-- The Python call `re.match(r"^#[0-9A-Fa-f]{6}$", s)` as a Boolean: the pattern
matches the whole string, or the whole string up to a single newline at the
end (the documented behavior of `$` outside MULTILINE mode). -/
def reMatchHexColor (s : String) : Bool :=
  isHexColorChars s.data
    || (s.data.getLastD ' ' == '\n' && isHexColorChars s.data.dropLast)

/-- The 11 color fields `Theme.validate` iterates over, in source order. -/
def Theme.colorFields (t : Theme) : List String :=
  [t.bg, t.text, t.gradient_color, t.water, t.parks, t.road_motorway,
   t.road_primary, t.road_secondary, t.road_tertiary, t.road_residential,
   t.road_default]

/-- Predicate stating that `Theme.validate` does not raise `ValueError`. -/
def Theme.validateOk (t : Theme) : Bool :=
  t.colorFields.all reMatchHexColor

/-- Built-in default `ThemeManager._default_theme()`: `Theme(name=..., description=...)` with
every color field at its dataclass default. -/
def defaultTheme : Theme :=
  ⟨"Feature-Based Shading", "Default theme with road hierarchy coloring",
   "#FFFFFF", "#000000", "#FFFFFF", "#C0C0C0", "#F0F0F0",
   "#0A0A0A", "#1A1A1A", "#2A2A2A", "#3A3A3A", "#4A4A4A", "#3A3A3A"⟩

/-- Outcome of reading and parsing one theme file. -/
inductive ThemeFile
  | missing
  | malformed
  | record (t : Theme)
deriving DecidableEq

/-- Loader `ThemeManager.load_theme`: missing file, parse failure and validation
failure all fall back to the built-in default theme; a valid parsed theme is
returned as is. -/
def load_theme (dir : String → ThemeFile) (name : String) : Theme :=
  match dir name with
  | .missing => defaultTheme
  | .malformed => defaultTheme
  | .record t => if t.validateOk then t else defaultTheme

/-- C4: `load_theme` is a total function (the embedding returns a `Theme` on
every input, mirroring that every exception path is caught), and loading a
nonexistent theme name, a theme file with invalid JSON, or a theme file
with invalid colors returns a theme equal to the built-in default theme. -/
theorem load_theme_fallback (dir : String → ThemeFile) (name : String)
    (h : dir name = ThemeFile.missing ∨ dir name = ThemeFile.malformed
      ∨ ∃ t, dir name = ThemeFile.record t ∧ t.validateOk = false) :
    load_theme dir name = defaultTheme := by
  rcases h with h | h | ⟨t, ht, hv⟩ <;> simp [load_theme, *]

/-- Witness for C4: a directory in which `noir` is missing, `bad` is
malformed, and `worse` parses to a theme with an invalid color field. -/
theorem load_theme_fallback_witness :
    ((fun n => if n = "bad" then ThemeFile.malformed
       else if n = "worse" then ThemeFile.record ⟨"w", "", "001122", "#000000",
         "#000000", "#000000", "#000000", "#000000", "#000000", "#000000",
         "#000000", "#000000", "#000000"⟩
       else ThemeFile.missing) "noir" = ThemeFile.missing
     ∨ (fun n => if n = "bad" then ThemeFile.malformed
       else if n = "worse" then ThemeFile.record ⟨"w", "", "001122", "#000000",
         "#000000", "#000000", "#000000", "#000000", "#000000", "#000000",
         "#000000", "#000000", "#000000"⟩
       else ThemeFile.missing) "noir" = ThemeFile.malformed
     ∨ ∃ t, (fun n => if n = "bad" then ThemeFile.malformed
       else if n = "worse" then ThemeFile.record ⟨"w", "", "001122", "#000000",
         "#000000", "#000000", "#000000", "#000000", "#000000", "#000000",
         "#000000", "#000000", "#000000"⟩
       else ThemeFile.missing) "noir" = ThemeFile.record t ∧ t.validateOk = false)
    ∧ load_theme (fun n => if n = "bad" then ThemeFile.malformed
       else if n = "worse" then ThemeFile.record ⟨"w", "", "001122", "#000000",
         "#000000", "#000000", "#000000", "#000000", "#000000", "#000000",
         "#000000", "#000000", "#000000"⟩
       else ThemeFile.missing) "noir" = defaultTheme :=
  ⟨Or.inl (by decide), load_theme_fallback _ "noir" (Or.inl (by decide))⟩

/-- C5 (counterexample): a theme whose `bg` field is `"#AABBCC\n"` — not a
string of `#` and exactly six hex digits with nothing after — nevertheless
passes `Theme.validate` without raising, because the regex anchor `$` also
matches just before a trailing newline.  This refutes the claim that
validation fails exactly on fields violating the strict 6-hex-digit
syntax. -/
theorem validate_accepts_trailing_newline :
    specHexColor "#AABBCC\n" = false
    ∧ Theme.validateOk ⟨"t", "", "#AABBCC\n", "#000000", "#000000", "#000000",
        "#000000", "#000000", "#000000", "#000000", "#000000", "#000000",
        "#000000"⟩ = true := by
  exact ⟨by decide, by decide⟩

/-- C5 (amended): `Theme.validate` raises a `ValueError` if and only if one
of the 11 color fields matches neither `#` + six hex digits exactly nor
`#` + six hex digits followed by a single trailing newline; in particular a
theme whose 11 fields are all strictly of the form `#` + six hex digits
passes validation, and a violating field is rejected, not coerced. -/
theorem validate_amended (t : Theme) :
    (t.validateOk = false ↔ ∃ s ∈ t.colorFields, reMatchHexColor s = false)
    ∧ (∀ s : String, reMatchHexColor s =
        (specHexColor s
          || (s.data.getLastD ' ' == '\n' && specHexColor (String.mk s.data.dropLast))))
    ∧ ((∀ s ∈ t.colorFields, specHexColor s = true) → t.validateOk = true) := by
  refine ⟨?_, fun s => rfl, ?_⟩
  · simp [Theme.validateOk, List.all_eq_true]
  · intro h
    simp only [Theme.validateOk, List.all_eq_true]
    intro s hs
    have hx : isHexColorChars s.data = true := h s hs
    simp [reMatchHexColor, hx]

/-- Witness for C5 (amended): the built-in default theme has all 11 fields
in strict 6-hex-digit syntax and passes validation. -/
theorem validate_amended_witness :
    (∀ s ∈ defaultTheme.colorFields, specHexColor s = true)
    ∧ Theme.validateOk defaultTheme = true :=
  ⟨by decide, (validate_amended defaultTheme).2.2 (by decide)⟩

/-! ## Edge tiers (`renderer.py`)

`StandardRenderer._get_edge_colors` and `_get_edge_widths` read the
`highway` attribute of each edge: `data.get("highway", "unclassified")` may produce a
string or a list of strings (a missing attribute produces the string
`"unclassified"`); a list is replaced by its first element, or
`"unclassified"` when empty.  The resulting string is then classified by
membership chains into a theme color and a line width.  Line widths are
Python float literals, modelled as exact rationals.
-/

/-- The possible values of the `highway` attribute of an edge. -/
inductive HighwayTag
  | str (s : String)
  | list (l : List String)
  | absent
deriving DecidableEq

/-- The step `data.get("highway", "unclassified")` followed by the list-handling step:
the string the membership chains actually classify. -/
def effectiveHighway : HighwayTag → String
  | .str s => s
  | .list [] => "unclassified"
  | .list (s :: _) => s
  | .absent => "unclassified"

/-- The six road-hierarchy tiers of the color chain in `_get_edge_colors`. -/
inductive RoadTier
  | motorway
  | primary
  | secondary
  | tertiary
  | residential
  | fallback
deriving DecidableEq

/-- The tier the membership chain in `_get_edge_colors` assigns to a highway
string: the `else` branch is the catch-all `fallback` tier (the spec's
"default tier", drawn with `theme.road_default`). -/
def roadTier (s : String) : RoadTier :=
  if s ∈ ["motorway", "motorway_link"] then .motorway
  else if s ∈ ["trunk", "trunk_link", "primary", "primary_link"] then .primary
  else if s ∈ ["secondary", "secondary_link"] then .secondary
  else if s ∈ ["tertiary", "tertiary_link"] then .tertiary
  else if s ∈ ["residential", "living_street", "unclassified"] then .residential
  else .fallback

/-- The theme color of each tier. -/
def tierColor (theme : Theme) : RoadTier → String
  | .motorway => theme.road_motorway
  | .primary => theme.road_primary
  | .secondary => theme.road_secondary
  | .tertiary => theme.road_tertiary
  | .residential => theme.road_residential
  | .fallback => theme.road_default

/-- The line width of each tier, per `_get_edge_widths` (the residential
family is not listed there and falls to the `else` width `0.4`, the same
width as the catch-all tier). -/
def tierWidth : RoadTier → ℚ
  | .motorway => 1.2
  | .primary => 1.0
  | .secondary => 0.8
  | .tertiary => 0.6
  | .residential => 0.4
  | .fallback => 0.4

/-- Loop body of `_get_edge_colors`, translated literally. -/
def edgeColor (theme : Theme) (h : HighwayTag) : String :=
  let highway := effectiveHighway h
  if highway ∈ ["motorway", "motorway_link"] then theme.road_motorway
  else if highway ∈ ["trunk", "trunk_link", "primary", "primary_link"] then theme.road_primary
  else if highway ∈ ["secondary", "secondary_link"] then theme.road_secondary
  else if highway ∈ ["tertiary", "tertiary_link"] then theme.road_tertiary
  else if highway ∈ ["residential", "living_street", "unclassified"] then theme.road_residential
  else theme.road_default

/-- Loop body of `_get_edge_widths`, translated literally. -/
def edgeWidth (h : HighwayTag) : ℚ :=
  let highway := effectiveHighway h
  if highway ∈ ["motorway", "motorway_link"] then 1.2
  else if highway ∈ ["trunk", "trunk_link", "primary", "primary_link"] then 1.0
  else if highway ∈ ["secondary", "secondary_link"] then 0.8
  else if highway ∈ ["tertiary", "tertiary_link"] then 0.6
  else 0.4

/-- Translation of `_get_edge_colors`: one color per edge. -/
def get_edge_colors (theme : Theme) (edges : List HighwayTag) : List String :=
  edges.map (edgeColor theme)

/-- Translation of `_get_edge_widths`: one width per edge. -/
def get_edge_widths (edges : List HighwayTag) : List ℚ :=
  edges.map edgeWidth

/-- The strings the membership chains recognize; everything else falls to
the catch-all tier. -/
def recognizedHighways : List String :=
  ["motorway", "motorway_link", "trunk", "trunk_link", "primary", "primary_link",
   "secondary", "secondary_link", "tertiary", "tertiary_link",
   "residential", "living_street", "unclassified"]

/-- C2 (counterexample): an edge with no `highway` tag is classified into
the residential tier — its color is `theme.road_residential` — and not into
the catch-all default tier, whose color `theme.road_default` differs in the
built-in default theme.  This refutes the claim that a missing tag maps to
the default tier. -/
theorem absent_highway_maps_to_residential :
    roadTier (effectiveHighway HighwayTag.absent) = RoadTier.residential
    ∧ RoadTier.residential ≠ RoadTier.fallback
    ∧ edgeColor defaultTheme HighwayTag.absent = defaultTheme.road_residential
    ∧ defaultTheme.road_residential ≠ defaultTheme.road_default := by
  exact ⟨by decide, by decide, by decide, by decide⟩

/-- C2 (amended): every possible road tag value (string, list, or absent)
maps to exactly one of the 6 tiers; a multi-valued tag uses its first
entry; a missing tag and an empty list behave like `"unclassified"` and map
to the residential tier; a string outside the recognized membership lists
maps to the catch-all default tier; and the per-edge color and width both
factor through this tier classification. -/
theorem edge_tier_amended :
    (∀ h : HighwayTag, ∃! t : RoadTier, roadTier (effectiveHighway h) = t)
    ∧ (∀ (s : String) (rest : List String),
        effectiveHighway (HighwayTag.list (s :: rest)) = effectiveHighway (HighwayTag.str s))
    ∧ effectiveHighway HighwayTag.absent = "unclassified"
    ∧ effectiveHighway (HighwayTag.list []) = "unclassified"
    ∧ roadTier "unclassified" = RoadTier.residential
    ∧ (∀ s : String, s ∉ recognizedHighways → roadTier s = RoadTier.fallback)
    ∧ (∀ (theme : Theme) (h : HighwayTag),
        edgeColor theme h = tierColor theme (roadTier (effectiveHighway h)))
    ∧ (∀ h : HighwayTag, edgeWidth h = tierWidth (roadTier (effectiveHighway h))) := by
  refine ⟨fun h => ⟨roadTier (effectiveHighway h), rfl, fun t ht => ht.symm⟩,
    fun s rest => rfl, rfl, rfl, by decide, ?_, ?_, ?_⟩
  · intro s hs
    unfold roadTier
    rw [if_neg, if_neg, if_neg, if_neg, if_neg] <;>
      · intro hmem
        apply hs
        simp only [recognizedHighways, List.mem_cons, List.mem_singleton] at *
        tauto
  · intro theme h
    simp only [edgeColor, roadTier]
    split_ifs <;> rfl
  · intro h
    simp only [edgeWidth, roadTier]
    split_ifs <;> rfl

/-- Witness for C2 (amended): the unrecognized string `footway` maps to the
catch-all tier. -/
theorem edge_tier_amended_witness :
    "footway" ∉ recognizedHighways ∧ roadTier "footway" = RoadTier.fallback :=
  ⟨by decide, edge_tier_amended.2.2.2.2.2.1 "footway" (by decide)⟩

/-! ## Crop limits (`renderer.py`) and title sizing (`typography.py`)

`_get_crop_limits` works from the min/max node coordinates and the figure
size; all quantities are Python floats, modelled as exact rationals, so the
"within floating-point tolerance" of the property becomes exact equality.
-/

/-- Translation of `StandardRenderer._get_crop_limits`, from the node bounding box
`(minx, maxx, miny, maxy)` and the figure size. -/
def get_crop_limits (minx maxx miny maxy fig_width fig_height : ℚ) :
    (ℚ × ℚ) × (ℚ × ℚ) :=
  let x_range := maxx - minx
  let y_range := maxy - miny
  let desired_aspect := fig_width / fig_height
  let current_aspect := x_range / y_range
  let center_x := (minx + maxx) / 2
  let center_y := (miny + maxy) / 2
  if current_aspect > desired_aspect then
    ((center_x - y_range * desired_aspect / 2, center_x + y_range * desired_aspect / 2),
      (miny, maxy))
  else if current_aspect < desired_aspect then
    ((minx, maxx),
      (center_y - x_range / desired_aspect / 2, center_y + x_range / desired_aspect / 2))
  else
    ((minx, maxx), (miny, maxy))

/-- C7: for a node bounding box with positive width and height and a figure
with positive dimensions, the width/height ratio of the crop window
equals the figure aspect ratio exactly, the window is centered on the box center
on both axes, and it never extends beyond the original box. -/
theorem crop_aspect_invariant (minx maxx miny maxy fw fh : ℚ)
    (hx : 0 < maxx - minx) (hy : 0 < maxy - miny) (hfw : 0 < fw) (hfh : 0 < fh)
    (xlim ylim : ℚ × ℚ)
    (heq : get_crop_limits minx maxx miny maxy fw fh = (xlim, ylim)) :
    (xlim.2 - xlim.1) / (ylim.2 - ylim.1) = fw / fh
    ∧ xlim.1 + xlim.2 = minx + maxx
    ∧ ylim.1 + ylim.2 = miny + maxy
    ∧ minx ≤ xlim.1 ∧ xlim.2 ≤ maxx ∧ miny ≤ ylim.1 ∧ ylim.2 ≤ maxy := by
  have hy' : maxy - miny ≠ 0 := ne_of_gt hy
  have hx' : maxx - minx ≠ 0 := ne_of_gt hx
  have hfh' : fh ≠ 0 := ne_of_gt hfh
  have hfw' : fw ≠ 0 := ne_of_gt hfw
  simp only [get_crop_limits] at heq
  split_ifs at heq with h1 h2
  · -- too wide: crop horizontally
    obtain ⟨rfl, rfl⟩ := Prod.mk.injEq .. ▸ heq
    have hw : (maxy - miny) * (fw / fh) < maxx - minx := by
      have h1' := (div_lt_div_iff₀ hfh hy).mp h1
      rw [mul_div_assoc', div_lt_iff₀ hfh]
      linarith
    have hwpos : 0 < (maxy - miny) * (fw / fh) :=
      mul_pos hy (div_pos hfw hfh)
    refine ⟨?_, by ring, by ring, by simp; linarith, by simp; linarith,
      le_refl _, le_refl _⟩
    have : (miny + maxy) / 2 + (maxy - miny) * (fw / fh) / 2
        - ((miny + maxy) / 2 - (maxy - miny) * (fw / fh) / 2)
        = (maxy - miny) * (fw / fh) := by ring
    simp only [Prod.fst, Prod.snd]
    field_simp
    ring
  · -- too tall: crop vertically
    obtain ⟨rfl, rfl⟩ := Prod.mk.injEq .. ▸ heq
    have hd : 0 < fw / fh := div_pos hfw hfh
    have hh : (maxx - minx) / (fw / fh) < maxy - miny := by
      have h2' := (div_lt_div_iff₀ hy hfh).mp h2
      rw [div_lt_iff₀ hd]
      calc maxx - minx = (maxx - minx) * fh / fh := by field_simp
        _ < (maxy - miny) * (fw / fh) := by
            rw [div_lt_iff₀ hfh, mul_assoc, div_mul_cancel₀ _ hfh']
            nlinarith

    have hhpos : 0 < (maxx - minx) / (fw / fh) := div_pos hx hd
    refine ⟨?_, by ring, by ring, le_refl _, le_refl _, by simp; linarith,
      by simp; linarith⟩
    simp only [Prod.fst, Prod.snd]
    have hne : (maxx + minx) / 2 + (maxx - minx) / (fw / fh) / 2
        - ((maxx + minx) / 2 - (maxx - minx) / (fw / fh) / 2) ≠ 0 := by
      intro hcon
      apply hx'
      have : (maxx - minx) / (fw / fh) = 0 := by linarith
      rcases div_eq_zero_iff.mp this with h | h
      · exact h
      · exact absurd h (ne_of_gt hd)
    field_simp
    ring
  · -- aspect ratios already equal
    obtain ⟨rfl, rfl⟩ := Prod.mk.injEq .. ▸ heq
    have hle : (maxx - minx) / (maxy - miny) ≤ fw / fh := not_lt.mp h1
    have hge : fw / fh ≤ (maxx - minx) / (maxy - miny) := not_lt.mp h2
    have hqeq : (maxx - minx) / (maxy - miny) = fw / fh := le_antisymm hle hge
    exact ⟨hqeq, by ring, by ring, le_refl _, le_refl _, le_refl _, le_refl _⟩

/-- Witness for C7: the box `[0,4] × [0,1]` cropped for a `2 × 1` figure. -/
theorem crop_aspect_invariant_witness :
    get_crop_limits 0 4 0 1 2 1 = ((1, 3), (0, 1))
    ∧ (((3 : ℚ) - 1) / ((1 : ℚ) - 0) = 2 / 1
      ∧ (1 : ℚ) + 3 = 0 + 4
      ∧ (0 : ℚ) + 1 = 0 + 1
      ∧ (0 : ℚ) ≤ 1 ∧ (3 : ℚ) ≤ 4 ∧ (0 : ℚ) ≤ 0 ∧ (1 : ℚ) ≤ 1) := by
  have hc : get_crop_limits 0 4 0 1 2 1 = ((1, 3), (0, 1)) := by
    norm_num [get_crop_limits]
  exact ⟨hc, crop_aspect_invariant 0 4 0 1 2 1 (by norm_num) (by norm_num)
    (by norm_num) (by norm_num) (1, 3) (0, 1) hc⟩

/-- The dynamic size computation of `TypographyManager.get_city_font` (the font
size passed to the created `FontProperties`); `base_size` defaults to 60 in
the source. -/
def get_city_size (city_name : String) (base_size : ℚ) : ℚ :=
  if city_name.length > 10 then
    max (base_size * (10 / (city_name.length : ℚ))) 24
  else base_size

/-- C8: a title of at most 10 characters uses the base size unmodified; a
longer title uses `base_size * 10 / length`, floored at the minimum legible
size 24. -/
theorem title_scaling (city : String) (base : ℚ) :
    (city.length ≤ 10 → get_city_size city base = base)
    ∧ (10 < city.length →
        get_city_size city base = max (base * 10 / (city.length : ℚ)) 24
        ∧ 24 ≤ get_city_size city base) := by
  constructor
  · intro h
    simp [get_city_size, Nat.not_lt.mpr h]
  · intro h
    have heq : get_city_size city base = max (base * 10 / (city.length : ℚ)) 24 := by
      simp [get_city_size, h, mul_div_assoc]
    exact ⟨heq, heq ▸ le_max_right _ _⟩

/-- Witness for C8: a 20-character title with base size 60 yields size 30. -/
theorem title_scaling_witness :
    10 < ("AAAAAAAAAAAAAAAAAAAA" : String).length
    ∧ get_city_size "AAAAAAAAAAAAAAAAAAAA" 60 = 30 := by
  have hlen : ("AAAAAAAAAAAAAAAAAAAA" : String).length = 20 := by decide
  refine ⟨by omega, ?_⟩
  have h := (title_scaling "AAAAAAAAAAAAAAAAAAAA" 60).2 (by omega)
  rw [h.1, hlen]
  rw [show ((60 : ℚ) * 10 / ((20 : ℕ) : ℚ)) = 30 by norm_num]
  exact max_eq_left (by norm_num)

/-! ## Rate limiting (`geocoding.py` `_rate_limit_wait`, `data_fetching.py`
`_rate_limit_wait`)

Both limiters follow the same template, one timer per request class: read
the clock, sleep `limit - elapsed` when the previous call of the class was
less than `limit` seconds ago, then store a fresh clock reading as the
class last-call timestamp and immediately issue the external request.
A sequence of sequential calls of one class is modelled as a list of clock
readings: `entry` is the reading used to compute `elapsed`, and `issue` is
the reading stored as the timestamp, at which the external request starts.
Physical constraints: the clock never runs backwards, sleeping `d` seconds
advances it by at least `d`, and the next call enters only after the
previous call recorded its timestamp (request latency may delay
it further, which the model leaves unbounded).
-/

/-- Clock readings of one rate-limited call: `entry` when the wait starts,
`issue` when the last-call timestamp is recorded and the external request
is issued. -/
structure RLCall where
  entry : ℚ
  issue : ℚ
deriving DecidableEq

/-- The sleep duration `_rate_limit_wait` performs: zero when no call of
this class has happened yet, otherwise `limit - elapsed` when the elapsed
time since the stored timestamp is below the limit. -/
def rlSleep (limit : ℚ) (last : Option ℚ) (now : ℚ) : ℚ :=
  match last with
  | none => 0
  | some t => if now - t < limit then limit - (now - t) else 0

/-- A physically possible sequence of sequential, cache-missing calls of one
request class: `last` is the stored timestamp, `lb` a lower bound on the
next entry reading (time only moves forward). -/
def rlTrace (limit : ℚ) : Option ℚ → ℚ → List RLCall → Prop
  | _, _, [] => True
  | last, lb, c :: rest =>
    lb ≤ c.entry ∧ c.entry + rlSleep limit last c.entry ≤ c.issue ∧
      rlTrace limit (some c.issue) c.issue rest

theorem rlTrace_spacing (limit : ℚ) :
    ∀ (calls : List RLCall) (last : Option ℚ) (lb : ℚ), rlTrace limit last lb calls →
      ∀ (i : Nat) (h : i + 1 < calls.length),
        (calls.get ⟨i, Nat.lt_of_succ_lt h⟩).issue + limit
          ≤ (calls.get ⟨i + 1, h⟩).issue := by
  intro calls
  induction calls with
  | nil => intro last lb _ i h; simp at h
  | cons c rest ih =>
    intro last lb htr i h
    obtain ⟨h1, h2, h3⟩ := htr
    cases i with
    | zero =>
      cases rest with
      | nil => simp at h
      | cons c' rest' =>
        obtain ⟨g1, g2, g3⟩ := h3
        simp only [List.get]
        have g2' : c'.entry
            + (if c'.entry - c.issue < limit then limit - (c'.entry - c.issue) else 0)
            ≤ c'.issue := g2
        by_cases hlt : c'.entry - c.issue < limit
        · rw [if_pos hlt] at g2'
          linarith
        · rw [if_neg hlt] at g2'
          push_neg at hlt
          linarith
    | succ i' =>
      exact ih (some c.issue) c.issue h3 i' (by simpa using h)

/-- C3: along every physically possible sequence of sequential calls of one
request class with no cache hits, the wall-clock span between the issuing
of request `i` (the moment the recorded timestamp is taken, just before the
external request) and the issuing of request `i+1` is at least the
configured interval, and the first call never sleeps.  Because the
timestamp is recorded before the request is issued, the bound holds however
long request latency delays the entry of the next call. -/
theorem rate_limit_lower_bound (limit : ℚ) (calls : List RLCall)
    (htr : rlTrace limit none 0 calls) :
    (∀ (i : Nat) (h : i + 1 < calls.length),
        (calls.get ⟨i, Nat.lt_of_succ_lt h⟩).issue + limit
          ≤ (calls.get ⟨i + 1, h⟩).issue)
    ∧ ∀ now : ℚ, rlSleep limit none now = 0 :=
  ⟨rlTrace_spacing limit calls none 0 htr, fun _ => rfl⟩

/-- Witness for C3: two calls at interval 1, the second entering 2 seconds
after the first issued. -/
theorem rate_limit_lower_bound_witness :
    rlTrace 1 none 0 [⟨0, 0⟩, ⟨2, 2⟩]
    ∧ (([⟨0, 0⟩, ⟨2, 2⟩] : List RLCall).get ⟨0, by norm_num⟩).issue + 1
        ≤ (([⟨0, 0⟩, ⟨2, 2⟩] : List RLCall).get ⟨1, by norm_num⟩).issue := by
  have htr : rlTrace 1 none 0 [⟨0, 0⟩, ⟨2, 2⟩] := by
    refine ⟨by norm_num, by norm_num [rlSleep], by norm_num, ?_, trivial⟩
    show (2 : ℚ) + (if (2 : ℚ) - 0 < 1 then 1 - ((2 : ℚ) - 0) else 0) ≤ 2
    norm_num
  exact ⟨htr, (rate_limit_lower_bound 1 _ htr).1 0 (by norm_num)⟩

/-! ## Geocoding with cache (`geocoding.py` `NominatimGeocoder.geocode`)

`geocode` derives the cache key, consults the cache, and on a hit returns
the cached coordinates immediately; only on a miss does it run
`_rate_limit_wait`, call the external provider, store the new timestamp and
write the cache.  The cache is modelled as a function from key to lookup
outcome (`absent`, a cached `hit`, or a `corrupt` entry whose read raises
`CacheError`); the provider as a function from query string to optional
coordinates (`none` covering both an unresolvable name and a provider
error, which `geocode` converts to `ValueError`).  The result tuple records
the outcome, the limiter timestamp after the call, how many provider
calls were made, the slept duration, and the cache after the call. -/

/-- Outcome of `CacheManager.get` for one key. -/
inductive CacheLookup
  | absent
  | hit (v : ℚ × ℚ)
  | corrupt
deriving DecidableEq

/-- Observable outcome of one `geocode` call. -/
inductive GeoOutcome
  | ok (coords : ℚ × ℚ)
  | valueError
  | cacheError
deriving DecidableEq

/-- Translation of `NominatimGeocoder.geocode`; `last` is `last_request_time` before the
call, `now` and `stamp` the clock readings taken at the start of
`_rate_limit_wait` and after its sleep. -/
def geocode (cache : String → CacheLookup) (provider : String → Option (ℚ × ℚ))
    (limit : ℚ) (last : Option ℚ) (now stamp : ℚ) (city country : String) :
    GeoOutcome × Option ℚ × Nat × ℚ × (String → CacheLookup) :=
  match cache (geo_cache_key city country) with
  | .hit v => (.ok v, last, 0, 0, cache)
  | .corrupt => (.cacheError, last, 0, 0, cache)
  | .absent =>
    match provider (city ++ ", " ++ country) with
    | none => (.valueError, some stamp, 1, rlSleep limit last now, cache)
    | some coords =>
      (.ok coords, some stamp, 1, rlSleep limit last now,
        fun k => if k = geo_cache_key city country then .hit coords else cache k)

/-- C6: a geocode request whose cache key holds a cached value returns that
value with no call to the external provider, no sleep, no change to the
rate-limiter last-request timestamp, and no change to the cache. -/
theorem geocode_cache_hit_frame (cache : String → CacheLookup)
    (provider : String → Option (ℚ × ℚ)) (limit : ℚ) (last : Option ℚ)
    (now stamp : ℚ) (city country : String) (v : ℚ × ℚ)
    (h : cache (geo_cache_key city country) = CacheLookup.hit v) :
    geocode cache provider limit last now stamp city country
      = (GeoOutcome.ok v, last, 0, 0, cache) := by
  simp [geocode, h]

/-- Witness for C6: a cache holding coordinates for `coords_paris_france`
and a provider that would fail if it were consulted. -/
theorem geocode_cache_hit_frame_witness :
    (fun k => if k = "coords_paris_france" then CacheLookup.hit ((48 : ℚ), (2 : ℚ))
        else CacheLookup.absent) (geo_cache_key "Paris" "France")
      = CacheLookup.hit ((48 : ℚ), (2 : ℚ))
    ∧ geocode
        (fun k => if k = "coords_paris_france" then CacheLookup.hit ((48 : ℚ), (2 : ℚ))
          else CacheLookup.absent)
        (fun _ => none) 1 (some 0) 5 6 "Paris" "France"
      = (GeoOutcome.ok ((48 : ℚ), (2 : ℚ)), some 0, 0, 0,
        fun k => if k = "coords_paris_france" then CacheLookup.hit ((48 : ℚ), (2 : ℚ))
          else CacheLookup.absent) := by
  have h : (fun k => if k = "coords_paris_france" then CacheLookup.hit ((48 : ℚ), (2 : ℚ))
      else CacheLookup.absent) (geo_cache_key "Paris" "France")
      = CacheLookup.hit ((48 : ℚ), (2 : ℚ)) := by decide
  exact ⟨h, geocode_cache_hit_frame _ _ 1 (some 0) 5 6 "Paris" "France" _ h⟩

/-! ## Batch generation (`create_map_poster.py` `generate_all_themes`,
`theme.py` `list_themes`)

`list_themes` sorts the `*.json` files of the themes directory and strips
the extension; the directory listing is modelled as the list of its
`*.json` filenames, `Path.stem` as dropping the 5-character `.json`
suffix.  `generate_all_themes` loops over the themes in that order,
calling `generate_poster` for each; one call is modelled as
`gen : String → Except E P`, where `ok p` means a poster file was written
at path `p` and `error e` a raised exception.  The run is summarized by
the themes attempted, the paths written (they stay on disk), and the
exception that escaped, if any. -/

/-- Model of `Path.stem` for a `*.json` filename: the name with the 5-character
`.json` extension removed. -/
def stemOf (file : String) : String :=
  String.mk (file.data.take (file.data.length - 5))

/-- Translation of `ThemeManager.list_themes`. -/
def list_themes (files : List String) : List String :=
  (List.insertionSort (· ≤ ·) files).map stemOf

/-- The body of `generate_all_themes`: attempt themes left to right,
stopping at the first raised exception. -/
def runAllThemes {E P : Type} (gen : String → Except E P) :
    List String → List String × List P × Option E
  | [] => ([], [], none)
  | t :: rest =>
    match gen t with
    | .error e => ([t], [], some e)
    | .ok p =>
      let r := runAllThemes gen rest
      (t :: r.1, p :: r.2.1, r.2.2)

/-- Translation of `PosterGenerator.generate_all_themes`. -/
def generate_all_themes {E P : Type} (gen : String → Except E P)
    (files : List String) : List String × List P × Option E :=
  runAllThemes gen (list_themes files)

theorem runAllThemes_stops {E P : Type} (gen : String → Except E P) (f : String → P) :
    ∀ (pre : List String) (bad : String) (post : List String) (e : E),
      (∀ t ∈ pre, gen t = Except.ok (f t)) → gen bad = Except.error e →
      runAllThemes gen (pre ++ bad :: post) = (pre ++ [bad], pre.map f, some e) := by
  intro pre
  induction pre with
  | nil =>
    intro bad post e _ hbad
    simp [runAllThemes, hbad]
  | cons t pre ih =>
    intro bad post e hok hbad
    have ht : gen t = Except.ok (f t) := hok t (List.mem_cons_self t pre)
    have hrest := ih bad post e (fun x hx => hok x (List.mem_cons_of_mem t hx)) hbad
    simp [runAllThemes, ht, hrest]

/-- C9: in all-themes batch mode the themes are attempted in the sorted
directory-listing order, and when the poster generation of one theme raises, the
exception propagates immediately: the themes after it are never attempted,
no list of completed paths is returned (the run ends with the exception),
while the posters already written for the earlier themes remain on disk. -/
theorem generate_all_themes_stops_on_failure {E P : Type}
    (gen : String → Except E P) (f : String → P) (files pre post : List String)
    (bad : String) (e : E)
    (hdecomp : list_themes files = pre ++ bad :: post)
    (hok : ∀ t ∈ pre, gen t = Except.ok (f t))
    (hbad : gen bad = Except.error e) :
    generate_all_themes gen files = (pre ++ [bad], pre.map f, some e)
    ∧ List.Sorted (· ≤ ·) (List.insertionSort (· ≤ ·) files) := by
  refine ⟨?_, List.sorted_insertionSort _ _⟩
  rw [generate_all_themes, hdecomp]
  exact runAllThemes_stops gen f pre bad post e hok hbad

/-- Witness for C9: two theme files; `a` succeeds, `b` raises, nothing
after `b` is attempted and the poster for `a` stays on disk. -/
theorem generate_all_themes_stops_witness :
    list_themes ["b.json", "a.json"] = ["a"] ++ "b" :: []
    ∧ generate_all_themes
        (fun t => if t = "b" then Except.error 7 else Except.ok (t ++ ".png"))
        ["b.json", "a.json"]
      = (["a"] ++ ["b"], (["a"] : List String).map (fun t => t ++ ".png"), some 7) := by
  have hba : ¬ (("b.json" : String) ≤ "a.json") := by
    rw [String.le_iff_toList_le]
    decide
  have hsort : List.insertionSort (· ≤ ·) (["b.json", "a.json"] : List String)
      = ["a.json", "b.json"] := by
    simp [List.insertionSort, List.orderedInsert, if_neg hba]
    decide
  have hd : list_themes ["b.json", "a.json"] = ["a"] ++ "b" :: [] := by
    rw [list_themes, hsort]
    rfl
  refine ⟨hd, ?_⟩
  exact (generate_all_themes_stops_on_failure
    (fun t => if t = "b" then Except.error 7 else Except.ok (t ++ ".png"))
    (fun t => t ++ ".png") ["b.json", "a.json"] ["a"] [] "b" 7 hd
    (by intro t ht; simp at ht; subst ht; rfl) (by rfl)).1

end MapPoster
